import Mathlib

/-!
Shallow embedding of `servidor.js`, a minimal Express + MySQL CRUD service
over a single `usuarios` table, together with theorems about its
request/response contract.

Modelling choices, each tied to a line of the source:
* A JSON request body is an association list from string keys to JSON
  values; `const ... = req.body` destructuring is key lookup, yielding
  `none` (JavaScript `undefined`) when the key is absent.
* JavaScript truthiness of a possibly-absent JSON value is `falsy`.
* The MySQL driver outcome of a `db.query` call is injected as an
  `Option String` argument (`some msg` models a driver error object with
  that message, `none` a successful execution), mirroring the `(err, ...)`
  callback convention.
* The store is the `usuarios` table: a list of rows plus the
  auto-increment counter. Binding `undefined` or `null` through
  `db.query` stores SQL NULL (`bindVal`); a retrieved NULL comes back to
  JavaScript as `null` (`fromDb`).
* MySQL compares the integer `id` column against a bound string by
  numeric coercion of the string's leading digits (`mysqlStrToNat`).
* Each handler returns the HTTP response, the resulting store, and the
  query it handed to the driver (`none` when it short-circuited before
  calling `db.query`), so that statement text and bound parameters are
  part of the observable behaviour.
-/

namespace Servidor

/-- A JSON scalar value as it appears in a request body. -/
inductive JVal where
  | str (s : String)
  | num (n : Int)
  | bool (b : Bool)
  | null
deriving DecidableEq

/-- JavaScript truthiness test `!v` on a possibly-absent value
(`none` models `undefined`). -/
def falsy : Option JVal → Bool
  | none => true
  | some (.str s) => s == ""
  | some (.num n) => n == 0
  | some (.bool b) => !b
  | some .null => true

/-- A JSON request body: keys with JSON values, as parsed by
`express.json()`. -/
abbrev ReqBody := List (String × JVal)

/-- Property access after destructuring `req.body`: the value at key `k`,
`none` (`undefined`) when absent. -/
def getField (b : ReqBody) (k : String) : Option JVal :=
  (b.find? (fun p => p.1 == k)).map Prod.snd

/-- One row of the `usuarios` table / one user object in a response.
`none` in a field is SQL NULL on the store side and JavaScript
`undefined` on the response side. -/
structure Usuario where
  id : Nat
  nombre : Option JVal
  telefono : Option JVal
  email : Option JVal
deriving DecidableEq

/-- The relational store: the rows of `usuarios` plus the auto-increment
counter for the next `id`. -/
structure Store where
  rows : List Usuario
  nextId : Nat
deriving DecidableEq

/-- A freshly created database: no rows, auto-increment starts at 1. -/
def Store.empty : Store := ⟨[], 1⟩

/-- The numeric value of the leading digits of a character list,
accumulated left to right; stops at the first non-digit. -/
def leadingNat : List Char → Nat → Nat
  | [], acc => acc
  | c :: rest, acc =>
    if c.isDigit then leadingNat rest (acc * 10 + (c.toNat - 48)) else acc

/-- MySQL numeric coercion of a string compared against an integer
column: the value of the leading digits, 0 when there are none. -/
def mysqlStrToNat (s : String) : Nat :=
  leadingNat s.data 0

/-- Whether the bound string parameter `s` matches the integer `id`
column value `n` under MySQL comparison. -/
def sqlIdMatch (s : String) (n : Nat) : Bool :=
  mysqlStrToNat s == n

/-- What `db.query` value-escaping stores for a bound parameter:
`undefined` and `null` both become SQL NULL. -/
def bindVal : Option JVal → Option JVal
  | none => none
  | some .null => none
  | some v => some v

/-- A stored field as the driver hands it back to JavaScript: SQL NULL
is read back as `null`. -/
def fromDb : Option JVal → Option JVal
  | none => some .null
  | some v => some v

/-- A stored row as it appears in a query result set. -/
def rowToJs (u : Usuario) : Usuario :=
  ⟨u.id, fromDb u.nombre, fromDb u.telefono, fromDb u.email⟩

/-- A statement handed to `db.query`: the SQL text and the array of
bound parameter values. -/
structure Query where
  sql : String
  params : List (Option JVal)
deriving DecidableEq

/-- The statement of `app.get(/api/usuarios)` (line 59). -/
def listQuery : Query :=
  ⟨"SELECT * FROM usuarios", []⟩

/-- The statement of `app.get(/api/usuarios/:id)` (line 93). -/
def getByIdQuery (id : String) : Query :=
  ⟨"SELECT * FROM usuarios WHERE id = ?", [some (.str id)]⟩

/-- The statement of `app.post(/api/usuarios)` (lines 113-115). -/
def insertQuery (nombre telefono email : Option JVal) : Query :=
  ⟨"INSERT INTO usuarios (nombre, telefono, email) VALUES (?, ?, ?)",
   [nombre, telefono, email]⟩

/-- The statement of `app.put(/api/usuarios/:id)` (lines 135-137). -/
def updateQuery (id : String) (nombre telefono email : Option JVal) : Query :=
  ⟨"UPDATE usuarios SET nombre = ?, telefono = ?, email = ? WHERE id = ?",
   [nombre, telefono, email, some (.str id)]⟩

/-- The statement of `app.delete(/api/usuarios/:id)` (line 151). -/
def deleteQuery (id : String) : Query :=
  ⟨"DELETE FROM usuarios WHERE id = ?", [some (.str id)]⟩

/-- A JSON response body, by shape: a single record, an array of
records, an object with a single `message` string field, or an object
with a single `error` string field. -/
inductive Body where
  | user (u : Usuario)
  | users (l : List Usuario)
  | msg (s : String)
  | errMsg (s : String)
deriving DecidableEq

/-- An HTTP response: status code and JSON body. `res.json` without
`res.status` sends 200. -/
structure Response where
  status : Nat
  body : Body
deriving DecidableEq

/-- The full observable outcome of one request: the response sent, the
store after the request, and the statement given to `db.query` (`none`
when the handler returned before querying). -/
structure Outcome where
  resp : Response
  store : Store
  issued : Option Query
deriving DecidableEq

/-- `app.get(/api/usuarios)` (lines 58-74): SELECT all rows; driver
error gives 500 with the error message, success gives 200 with the
result array. -/
def handleGetAll (e : Option String) (st : Store) : Outcome :=
  match e with
  | some m => ⟨⟨500, .errMsg m⟩, st, some listQuery⟩
  | none => ⟨⟨200, .users (st.rows.map rowToJs)⟩, st, some listQuery⟩

/-- `app.get(/api/usuarios/:id)` (lines 77-103): SELECT by id; driver
error gives 500, empty result set gives 404, otherwise 200 with
`results[0]`. -/
def handleGetById (e : Option String) (st : Store) (id : String) : Outcome :=
  match e with
  | some m => ⟨⟨500, .errMsg m⟩, st, some (getByIdQuery id)⟩
  | none =>
    match st.rows.filter (fun u => sqlIdMatch id u.id) with
    | [] => ⟨⟨404, .msg "Usuario no encontrado"⟩, st, some (getByIdQuery id)⟩
    | u :: _ => ⟨⟨200, .user (rowToJs u)⟩, st, some (getByIdQuery id)⟩

/-- `app.post(/api/usuarios)` (lines 106-122): destructure `nombre`,
`telefono`, `email` from the body; if `nombre` or `email` is falsy,
400 before any query; otherwise INSERT and answer 201 echoing the body
values plus the generated id. -/
def handlePost (e : Option String) (st : Store) (body : ReqBody) : Outcome :=
  let nombre := getField body "nombre"
  let telefono := getField body "telefono"
  let email := getField body "email"
  if falsy nombre || falsy email then
    ⟨⟨400, .msg "Nombre y email son obligatorios"⟩, st, none⟩
  else
    match e with
    | some m => ⟨⟨500, .errMsg m⟩, st, some (insertQuery nombre telefono email)⟩
    | none =>
      ⟨⟨201, .user ⟨st.nextId, nombre, telefono, email⟩⟩,
       ⟨st.rows ++ [⟨st.nextId, bindVal nombre, bindVal telefono, bindVal email⟩],
        st.nextId + 1⟩,
       some (insertQuery nombre telefono email)⟩

/-- The effect of the UPDATE statement on one row: rows whose id matches
the bound id get all three columns overwritten. -/
def updateRow (nombre telefono email : Option JVal) (id : String) (u : Usuario) : Usuario :=
  if sqlIdMatch id u.id then ⟨u.id, bindVal nombre, bindVal telefono, bindVal email⟩ else u

/-- `app.put(/api/usuarios/:id)` (lines 125-144): UPDATE by id with the
destructured body fields; driver error gives 500, otherwise 200 with a
confirmation message regardless of how many rows were affected. -/
def handlePut (e : Option String) (st : Store) (id : String) (body : ReqBody) : Outcome :=
  let nombre := getField body "nombre"
  let telefono := getField body "telefono"
  let email := getField body "email"
  match e with
  | some m => ⟨⟨500, .errMsg m⟩, st, some (updateQuery id nombre telefono email)⟩
  | none =>
    ⟨⟨200, .msg "Usuario actualizado correctamente"⟩,
     ⟨st.rows.map (updateRow nombre telefono email id), st.nextId⟩,
     some (updateQuery id nombre telefono email)⟩

/-- `app.delete(/api/usuarios/:id)` (lines 147-158): DELETE by id;
driver error gives 500, otherwise 200 with a confirmation message
regardless of how many rows were affected. -/
def handleDelete (e : Option String) (st : Store) (id : String) : Outcome :=
  match e with
  | some m => ⟨⟨500, .errMsg m⟩, st, some (deleteQuery id)⟩
  | none =>
    ⟨⟨200, .msg "Usuario eliminado correctamente"⟩,
     ⟨st.rows.filter (fun u => !sqlIdMatch id u.id), st.nextId⟩,
     some (deleteQuery id)⟩

/-! Helper lemmas shared by the claim theorems. -/

theorem fromDb_bindVal (v : JVal) : fromDb (bindVal (some v)) = some v := by
  cases v <;> rfl

theorem updateRow_id (n t m : Option JVal) (id : String) (u : Usuario) :
    (updateRow n t m id u).id = u.id := by
  unfold updateRow
  split <;> rfl

theorem filter_map_updateRow (id : String) (n t m : Option JVal) (rows : List Usuario) :
    (rows.map (updateRow n t m id)).filter (fun r => sqlIdMatch id r.id) =
      (rows.filter (fun r => sqlIdMatch id r.id)).map
        (fun u => ⟨u.id, bindVal n, bindVal t, bindVal m⟩) := by
  induction rows with
  | nil => rfl
  | cons u us ih =>
    by_cases h : sqlIdMatch id u.id = true
    · simp only [List.map_cons, List.filter_cons, updateRow_id, h, if_true, ih,
        updateRow, List.map_cons]
    · simp only [List.map_cons, List.filter_cons, updateRow_id, h, if_false, ih,
        updateRow, Bool.false_eq_true]

theorem filter_not_self (p : Usuario → Bool) (l : List Usuario) :
    (l.filter (fun u => !p u)).filter p = [] := by
  induction l with
  | nil => rfl
  | cons u us ih =>
    by_cases h : p u = true
    · simp [List.filter_cons, h, ih]
    · simp [List.filter_cons, h, ih]

theorem getById_issued (e : Option String) (st : Store) (id : String) :
    (handleGetById e st id).issued = some (getByIdQuery id) := by
  cases e with
  | some m => rfl
  | none =>
    cases hf : st.rows.filter (fun u => sqlIdMatch id u.id) with
    | nil => simp [handleGetById, hf]
    | cons u us => simp [handleGetById, hf]

/-! The claim theorems. -/

/-- C1: a Create request whose body lacks the name field (wire key
nombre) or lacks the email field is answered 400 with the message
"Nombre y email son obligatorios", the store is unchanged, and no
INSERT statement is handed to the driver, whatever the driver outcome
would have been. -/
theorem c1_create_missing_required_field (e : Option String) (st : Store) (body : ReqBody)
    (h : getField body "nombre" = none ∨ getField body "email" = none) :
    (handlePost e st body).resp = ⟨400, .msg "Nombre y email son obligatorios"⟩ ∧
    (handlePost e st body).store = st ∧
    (handlePost e st body).issued = none := by
  have hf : (falsy (getField body "nombre") || falsy (getField body "email")) = true := by
    rcases h with h | h <;> simp [h, falsy]
  refine ⟨?_, ?_, ?_⟩ <;> simp [handlePost, hf]

/-- C1 witness: the spec scenario, a body holding only telefono, on an
empty store. -/
theorem c1_create_missing_required_field_witness :
    (getField [("telefono", JVal.str "123")] "nombre" = none ∨
      getField [("telefono", JVal.str "123")] "email" = none) ∧
    ((handlePost none Store.empty [("telefono", JVal.str "123")]).resp =
        ⟨400, .msg "Nombre y email son obligatorios"⟩ ∧
      (handlePost none Store.empty [("telefono", JVal.str "123")]).store = Store.empty ∧
      (handlePost none Store.empty [("telefono", JVal.str "123")]).issued = none) :=
  ⟨Or.inl rfl, c1_create_missing_required_field none Store.empty _ (Or.inl rfl)⟩

/-- C2 counterexample: the claim's literal Create request, whose body
uses wire key name rather than nombre, is answered 400 on an empty
store — not 201 as the claim states — because the handler destructures
the key nombre, which is absent. -/
theorem c2_counterexample_name_key_rejected :
    (handlePost none Store.empty
        [("name", JVal.str "Ana"), ("email", JVal.str "ana@x.com")]).resp =
      ⟨400, .msg "Nombre y email son obligatorios"⟩ ∧
    (handlePost none Store.empty
        [("name", JVal.str "Ana"), ("email", JVal.str "ana@x.com")]).resp.status ≠ 201 :=
  ⟨rfl, by decide⟩

/-- C2 amended: the first Create on an empty store whose body carries
the store's literal field names — nombre "Ana" and email "ana@x.com",
telefono absent — is answered 201 with the created record: id 1, nombre
"Ana", telefono undefined, email "ana@x.com". -/
theorem c2_create_first_record :
    (handlePost none Store.empty
        [("nombre", JVal.str "Ana"), ("email", JVal.str "ana@x.com")]).resp =
      ⟨201, .user ⟨1, some (.str "Ana"), none, some (.str "ana@x.com")⟩⟩ := rfl

/-- C3: when the statement executes without a driver error, Update and
Delete answer 200 with their confirmation messages for every store and
every id — in particular for a store holding no row with that id — since
the handlers never inspect the affected-row count. -/
theorem c3_update_delete_always_confirm (st : Store) (id : String) (body : ReqBody) :
    (handlePut none st id body).resp = ⟨200, .msg "Usuario actualizado correctamente"⟩ ∧
    (handleDelete none st id).resp = ⟨200, .msg "Usuario eliminado correctamente"⟩ :=
  ⟨rfl, rfl⟩

/-- C4: a Get-by-id whose query runs without a driver error answers 404
with message "Usuario no encontrado" when no row matches the id, and
200 with the single matching record when exactly one row matches. -/
theorem c4_get_by_id_404_or_record (st : Store) (id : String) :
    (st.rows.filter (fun r => sqlIdMatch id r.id) = [] →
      (handleGetById none st id).resp = ⟨404, .msg "Usuario no encontrado"⟩) ∧
    (∀ u, st.rows.filter (fun r => sqlIdMatch id r.id) = [u] →
      (handleGetById none st id).resp = ⟨200, .user (rowToJs u)⟩) := by
  constructor
  · intro h
    simp [handleGetById, h]
  · intro u h
    simp [handleGetById, h]

/-- C4 witness: the spec scenario GET id 999 against a store holding
only id 1 gives 404; GET id 1 gives 200 with that record. -/
theorem c4_get_by_id_404_or_record_witness :
    (handleGetById none ⟨[⟨1, some (.str "Ana"), none, none⟩], 2⟩ "999").resp =
      ⟨404, .msg "Usuario no encontrado"⟩ ∧
    (handleGetById none ⟨[⟨1, some (.str "Ana"), none, none⟩], 2⟩ "1").resp =
      ⟨200, .user (rowToJs ⟨1, some (.str "Ana"), none, none⟩)⟩ :=
  ⟨(c4_get_by_id_404_or_record ⟨[⟨1, some (.str "Ana"), none, none⟩], 2⟩ "999").1 rfl,
   (c4_get_by_id_404_or_record ⟨[⟨1, some (.str "Ana"), none, none⟩], 2⟩ "1").2 _ rfl⟩

/-- C5: on a store holding a row matching the id, an Update without a
driver error, whose body carries all three fields nombre, telefono,
email, followed by a Get-by-id on the same id without a driver error,
returns 200 with a record whose name, phone and email fields are
exactly the values sent in the Update body: all mutable columns are
overwritten. -/
theorem c5_update_then_get_reflects (st : Store) (id : String) (body : ReqBody)
    (n t m : JVal)
    (hn : getField body "nombre" = some n)
    (ht : getField body "telefono" = some t)
    (hm : getField body "email" = some m)
    (hex : ∃ u ∈ st.rows, sqlIdMatch id u.id = true) :
    (handleGetById none (handlePut none st id body).store id).resp =
      ⟨200, .user ⟨mysqlStrToNat id, some n, some t, some m⟩⟩ := by
  obtain ⟨u0, hu0, hmatch⟩ := hex
  have hmem : u0 ∈ st.rows.filter (fun r => sqlIdMatch id r.id) :=
    List.mem_filter.mpr ⟨hu0, hmatch⟩
  have hstore : (handlePut none st id body).store =
      ⟨st.rows.map (updateRow (some n) (some t) (some m) id), st.nextId⟩ := by
    simp [handlePut, hn, ht, hm]
  rw [hstore]
  rcases hfe : st.rows.filter (fun r => sqlIdMatch id r.id) with _ | ⟨v, vs⟩
  · rw [hfe] at hmem
    cases hmem
  · have hv : v ∈ st.rows.filter (fun r => sqlIdMatch id r.id) := by
      rw [hfe]
      exact List.mem_cons_self _ _
    have hpv : (mysqlStrToNat id == v.id) = true := (List.mem_filter.mp hv).2
    have hvid : v.id = mysqlStrToNat id := (beq_iff_eq.mp hpv).symm
    simp [handleGetById, filter_map_updateRow, hfe, rowToJs, fromDb_bindVal, hvid]

/-- C5 witness: updating the single row id 1 with nombre "Bea",
telefono "5", email "b@x" and reading it back. -/
theorem c5_update_then_get_reflects_witness :
    (∃ u ∈ ([⟨1, some (.str "Ana"), none, none⟩] : List Usuario),
        sqlIdMatch "1" u.id = true) ∧
    (handleGetById none
        (handlePut none ⟨[⟨1, some (.str "Ana"), none, none⟩], 2⟩ "1"
          [("nombre", JVal.str "Bea"), ("telefono", JVal.str "5"),
           ("email", JVal.str "b@x")]).store "1").resp =
      ⟨200, .user ⟨mysqlStrToNat "1", some (.str "Bea"), some (.str "5"),
        some (.str "b@x")⟩⟩ :=
  ⟨⟨_, List.mem_cons_self _ _, rfl⟩,
   c5_update_then_get_reflects ⟨[⟨1, some (.str "Ana"), none, none⟩], 2⟩ "1"
     [("nombre", JVal.str "Bea"), ("telefono", JVal.str "5"), ("email", JVal.str "b@x")]
     _ _ _ rfl rfl rfl ⟨_, List.mem_cons_self _ _, rfl⟩⟩

/-- C6: a Delete without a driver error removes every row matching the
id, so a following Get-by-id on the same id finds an empty result set
and answers 404 "Usuario no encontrado"; the auto-increment counter is
untouched, so the deleted id is never handed out again. -/
theorem c6_delete_then_get_404 (st : Store) (id : String) :
    (handleGetById none (handleDelete none st id).store id).resp =
      ⟨404, .msg "Usuario no encontrado"⟩ ∧
    (handleDelete none st id).store.nextId = st.nextId := by
  refine ⟨?_, rfl⟩
  have hnil : ((st.rows.filter (fun u => !sqlIdMatch id u.id)).filter
      (fun u => sqlIdMatch id u.id)) = [] :=
    filter_not_self _ _
  simp [handleDelete, handleGetById, hnil]

/-- C7: for each of the five operations and every request — any store,
id and body, including an empty Update body — a driver failure with
message m is answered 500 with a body that is a single-field object
carrying the human-readable message m — no structured error code
beyond the HTTP status — and the store is left unchanged, so only the
current response is affected. For Create the conclusion is stated for
bodies that pass validation, since an invalid body never reaches the
driver and a store failure cannot occur for it. -/
theorem c7_store_failure_500 (m : String) (st : Store) (id : String) (body : ReqBody) :
    ((handleGetAll (some m) st).resp = ⟨500, .errMsg m⟩ ∧
      (handleGetAll (some m) st).store = st) ∧
    ((handleGetById (some m) st id).resp = ⟨500, .errMsg m⟩ ∧
      (handleGetById (some m) st id).store = st) ∧
    (falsy (getField body "nombre") = false → falsy (getField body "email") = false →
      (handlePost (some m) st body).resp = ⟨500, .errMsg m⟩ ∧
      (handlePost (some m) st body).store = st) ∧
    ((handlePut (some m) st id body).resp = ⟨500, .errMsg m⟩ ∧
      (handlePut (some m) st id body).store = st) ∧
    ((handleDelete (some m) st id).resp = ⟨500, .errMsg m⟩ ∧
      (handleDelete (some m) st id).store = st) := by
  refine ⟨⟨rfl, rfl⟩, ⟨rfl, rfl⟩, ?_, ⟨rfl, rfl⟩, ⟨rfl, rfl⟩⟩
  intro hn hm
  refine ⟨?_, ?_⟩ <;> simp [handlePost, hn, hm]

/-- C7 witness: a driver failure "boom" on a Create with a valid body
and on an Update with an empty body, against an empty store. -/
theorem c7_store_failure_500_witness :
    falsy (getField [("nombre", JVal.str "Ana"), ("email", JVal.str "a@b")] "nombre") = false ∧
    falsy (getField [("nombre", JVal.str "Ana"), ("email", JVal.str "a@b")] "email") = false ∧
    (handlePost (some "boom") Store.empty
        [("nombre", JVal.str "Ana"), ("email", JVal.str "a@b")]).resp =
      ⟨500, .errMsg "boom"⟩ ∧
    (handlePut (some "boom") Store.empty "5" []).resp = ⟨500, .errMsg "boom"⟩ :=
  ⟨rfl, rfl,
   ((c7_store_failure_500 "boom" Store.empty "1"
     [("nombre", JVal.str "Ana"), ("email", JVal.str "a@b")]).2.2.1 rfl rfl).1,
   (c7_store_failure_500 "boom" Store.empty "5" []).2.2.2.1.1⟩

/-- C8: for every request — any driver outcome, store, id and body,
falsy or absent fields included — the SQL text handed to the driver by
Get-by-id, Update and Delete is the fixed literal of the source,
containing only placeholders, and every caller-supplied value — id,
nombre, telefono, email — appears exactly in the bound-parameter
array, never in the statement text; and any statement a Create request
issues (an invalid body issues none) is likewise the fixed INSERT
literal with the body values as its bound parameters. -/
theorem c8_constant_sql_bound_params (e : Option String) (st : Store) (id : String)
    (body : ReqBody) :
    (handleGetById e st id).issued =
      some ⟨"SELECT * FROM usuarios WHERE id = ?", [some (.str id)]⟩ ∧
    (handleDelete e st id).issued =
      some ⟨"DELETE FROM usuarios WHERE id = ?", [some (.str id)]⟩ ∧
    (handlePut e st id body).issued =
      some ⟨"UPDATE usuarios SET nombre = ?, telefono = ?, email = ? WHERE id = ?",
        [getField body "nombre", getField body "telefono", getField body "email",
         some (.str id)]⟩ ∧
    (∀ q, (handlePost e st body).issued = some q →
      q = ⟨"INSERT INTO usuarios (nombre, telefono, email) VALUES (?, ?, ?)",
        [getField body "nombre", getField body "telefono", getField body "email"]⟩) := by
  refine ⟨getById_issued e st id, ?_, ?_, ?_⟩
  · cases e <;> simp [handleDelete, deleteQuery]
  · cases e <;> simp [handlePut, updateQuery]
  · intro q hq
    by_cases hf : (falsy (getField body "nombre") || falsy (getField body "email")) = true
    · simp [handlePost, hf] at hq
    · rw [Bool.not_eq_true] at hf
      cases e <;> simp [handlePost, hf, insertQuery] at hq <;> exact hq.symm

/-- C8 witness: id 7 and a valid body under a successful driver
outcome; the issued INSERT is the fixed literal with the body values
bound. -/
theorem c8_constant_sql_bound_params_witness :
    (handleGetById none Store.empty "7").issued =
      some ⟨"SELECT * FROM usuarios WHERE id = ?", [some (.str "7")]⟩ ∧
    (handlePost none Store.empty
        [("nombre", JVal.str "Ana"), ("email", JVal.str "a@b")]).issued =
      some (insertQuery (some (.str "Ana")) none (some (.str "a@b"))) ∧
    insertQuery (some (.str "Ana")) none (some (.str "a@b")) =
      ⟨"INSERT INTO usuarios (nombre, telefono, email) VALUES (?, ?, ?)",
       [some (.str "Ana"), none, some (.str "a@b")]⟩ :=
  ⟨(c8_constant_sql_bound_params none Store.empty "7" []).1,
   rfl,
   (c8_constant_sql_bound_params none Store.empty "7"
     [("nombre", JVal.str "Ana"), ("email", JVal.str "a@b")]).2.2.2 _ rfl⟩

/-- C9: Create rejects not only an absent nombre or email but every
JavaScript-falsy value of either field — the empty string, 0, false and
null as well as undefined — answering 400 "Nombre y email son
obligatorios" with the store unchanged and no INSERT issued. -/
theorem c9_create_falsy_rejected (e : Option String) (st : Store) (body : ReqBody)
    (h : falsy (getField body "nombre") = true ∨ falsy (getField body "email") = true) :
    (handlePost e st body).resp = ⟨400, .msg "Nombre y email son obligatorios"⟩ ∧
    (handlePost e st body).store = st ∧
    (handlePost e st body).issued = none := by
  have hf : (falsy (getField body "nombre") || falsy (getField body "email")) = true := by
    rcases h with h | h <;> simp [h]
  refine ⟨?_, ?_, ?_⟩ <;> simp [handlePost, hf]

/-- C9 witness: nombre present but equal to the empty string. -/
theorem c9_create_falsy_rejected_witness :
    falsy (getField [("nombre", JVal.str ""), ("email", JVal.str "a@b")] "nombre") = true ∧
    (handlePost none Store.empty
        [("nombre", JVal.str ""), ("email", JVal.str "a@b")]).resp =
      ⟨400, .msg "Nombre y email son obligatorios"⟩ :=
  ⟨rfl,
   (c9_create_falsy_rejected none Store.empty
     [("nombre", JVal.str ""), ("email", JVal.str "a@b")] (Or.inl rfl)).1⟩

/-- C10: the id path parameter is never parsed or validated — for every
string id and every driver outcome, Get-by-id, Update and Delete never
answer 400 and bind the raw string as the sole id parameter of their
fixed statements; and for a non-numeric id (numeric coercion 0) against
a store whose ids are all at least 1, Get-by-id answers 404 while
Update and Delete answer their 200 confirmations. -/
theorem c10_id_never_validated :
    (∀ (e : Option String) (st : Store) (id : String) (body : ReqBody),
      (handleGetById e st id).resp.status ≠ 400 ∧
      (handlePut e st id body).resp.status ≠ 400 ∧
      (handleDelete e st id).resp.status ≠ 400 ∧
      (handleGetById e st id).issued = some (getByIdQuery id) ∧
      (handlePut e st id body).issued =
        some (updateQuery id (getField body "nombre") (getField body "telefono")
          (getField body "email")) ∧
      (handleDelete e st id).issued = some (deleteQuery id)) ∧
    (∀ (st : Store) (id : String) (body : ReqBody),
      mysqlStrToNat id = 0 → (∀ u ∈ st.rows, 1 ≤ u.id) →
      (handleGetById none st id).resp = ⟨404, .msg "Usuario no encontrado"⟩ ∧
      (handlePut none st id body).resp = ⟨200, .msg "Usuario actualizado correctamente"⟩ ∧
      (handleDelete none st id).resp = ⟨200, .msg "Usuario eliminado correctamente"⟩) := by
  constructor
  · intro e st id body
    refine ⟨?_, ?_, ?_, getById_issued e st id, ?_, ?_⟩
    · cases e with
      | some m => simp [handleGetById]
      | none =>
        cases hf : st.rows.filter (fun u => sqlIdMatch id u.id) with
        | nil => simp [handleGetById, hf]
        | cons u us => simp [handleGetById, hf]
    · cases e <;> simp [handlePut]
    · cases e <;> simp [handleDelete]
    · cases e <;> simp [handlePut, updateQuery]
    · cases e <;> simp [handleDelete, deleteQuery]
  · intro st id body h0 hids
    have hnil : st.rows.filter (fun u => sqlIdMatch id u.id) = [] := by
      rw [List.filter_eq_nil_iff]
      intro u hu
      have h1 := hids u hu
      simp [sqlIdMatch, h0]
      omega
    exact ⟨by simp [handleGetById, hnil], rfl, rfl⟩

/-- C10 witness: the non-numeric id "abc" against a store holding only
the row with id 1. -/
theorem c10_id_never_validated_witness :
    mysqlStrToNat "abc" = 0 ∧
    (∀ u ∈ ([⟨1, some (.str "Ana"), none, none⟩] : List Usuario), 1 ≤ u.id) ∧
    (handleGetById none ⟨[⟨1, some (.str "Ana"), none, none⟩], 2⟩ "abc").resp =
      ⟨404, .msg "Usuario no encontrado"⟩ ∧
    (handleGetById none ⟨[⟨1, some (.str "Ana"), none, none⟩], 2⟩ "abc").resp.status ≠ 400 :=
  ⟨rfl, by decide,
   (c10_id_never_validated.2 ⟨[⟨1, some (.str "Ana"), none, none⟩], 2⟩ "abc" []
     rfl (by decide)).1,
   (c10_id_never_validated.1 none ⟨[⟨1, some (.str "Ana"), none, none⟩], 2⟩ "abc" []).1⟩

end Servidor
